import Mathlib

/-!
# Verification of the video-sync repository against its specification

Shallow embedding of the playback-synchronization logic (src/content/content.js),
the connection manager (src/offscreen/offscreen.js) and the session coordinator
(src/unnamed/part_000, the background service worker), together with theorems
settling the frozen claims about the specification.

Modelling conventions:
* JavaScript numbers used for media time and playback rate are modelled as `ℚ`
  (the code performs only comparisons, subtraction and absolute value on them).
* A JavaScript value that may be `undefined` is modelled as an `Option`.
* The JavaScript `x || d` idiom on a numeric field (where both `undefined` and
  `0` are falsy) is modelled by `jsOrQ`.
* Mutation of the media element is modelled as a list of element operations
  (`VideoOp`) folded over a `VideoState`.
-/

namespace VideoSync

/-- Playback state of the bound media element: `currentTime`, `paused`,
`playbackRate` are the three element properties the content script reads
and writes. -/
structure VideoState where
  currentTime : ℚ
  paused : Bool
  playbackRate : ℚ
deriving DecidableEq, Repr

/-- The `type` field of a Sync Event (content.js `applySync` switch labels). -/
inductive SyncType
  | play
  | pause
  | seek
  | speed
  | buffering
  | syncRequest
  | syncResponse
  | chat
deriving DecidableEq, Repr

/-- A Sync Event as transmitted on the wire.  Fields that a given event type
does not carry are `none` (JavaScript `undefined`). -/
structure SyncData where
  type : SyncType
  time : Option ℚ := none
  speed : Option ℚ := none
  playing : Option Bool := none
deriving DecidableEq, Repr

/-- JavaScript `Math.abs` on the rationals modelling media times (an
explicit conditional so that concrete instances evaluate by kernel
reduction; equal to Mathlib's `|q|` by `ratAbs_eq_abs`). -/
def ratAbs (q : ℚ) : ℚ := if q < 0 then -q else q

/-- JavaScript `x || d` for a numeric field: `undefined` and `0` are falsy,
every other number is returned unchanged. -/
def jsOrQ (x : Option ℚ) (d : ℚ) : ℚ :=
  match x with
  | none => d
  | some v => if v = 0 then d else v

/-- An operation `applySync` performs on the media element (or, for
`sync-request`, the catch-up message it sends back instead). -/
inductive VideoOp
  | setTime (t : ℚ)
  | play
  | pause
  | setRate (r : ℚ)
  | respond (d : SyncData)
deriving DecidableEq, Repr

/-- The threshold `SYNC_THRESHOLD = 0.5` of content.js. -/
def SYNC_THRESHOLD : ℚ := 1/2

/-- The sequence of element operations performed by `applySync` of
content.js (lines 172-250) on receiving Sync Event `d` while the bound
element is in state `v`.  `timeDiff` is `Math.abs(video.currentTime -
(data.time || 0))`; an absent `time`/`speed` written to the element is
modelled as writing `0` (the claims only exercise events that carry the
field). -/
def applySyncOps (d : SyncData) (v : VideoState) : List VideoOp :=
  let timeDiff := ratAbs (v.currentTime - (d.time.getD 0))
  match d.type with
  | .play =>
      (if timeDiff > SYNC_THRESHOLD then [VideoOp.setTime (d.time.getD 0)] else [])
        ++ [VideoOp.play]
  | .pause =>
      (if timeDiff > SYNC_THRESHOLD then [VideoOp.setTime (d.time.getD 0)] else [])
        ++ [VideoOp.pause]
  | .seek => [VideoOp.setTime (d.time.getD 0)]
  | .speed => [VideoOp.setRate (d.speed.getD 0)]
  | .buffering => [VideoOp.pause]
  | .syncRequest =>
      [VideoOp.respond
        { type := .syncResponse
          time := some v.currentTime
          playing := some (!v.paused)
          speed := some v.playbackRate }]
  | .syncResponse =>
      [VideoOp.setTime (d.time.getD 0), VideoOp.setRate (jsOrQ d.speed 1)]
        ++ (if d.playing.getD false then [VideoOp.play] else [VideoOp.pause])
  | .chat => []

/-- Effect of one element operation on the element state (`respond` sends a
message and leaves the element untouched). -/
def runOp (v : VideoState) : VideoOp → VideoState
  | .setTime t => { v with currentTime := t }
  | .play => { v with paused := false }
  | .pause => { v with paused := true }
  | .setRate r => { v with playbackRate := r }
  | .respond _ => v

/-- Fold a list of element operations over a state. -/
def runOps (v : VideoState) (ops : List VideoOp) : VideoState :=
  ops.foldl runOp v

/-- Element state after `applySync` handles event `d` in state `v`. -/
def applySync (d : SyncData) (v : VideoState) : VideoState :=
  runOps v (applySyncOps d v)

/-- The `sync-response` Sync Event the `sync-request` branch of `applySync`
constructs from the current element state. -/
def responseOf (v : VideoState) : SyncData :=
  { type := .syncResponse
    time := some v.currentTime
    playing := some (!v.paused)
    speed := some v.playbackRate }

/-- A play event carrying remote position `t`. -/
def playEvent (t : ℚ) : SyncData := { type := .play, time := some t }

/-- A pause event carrying remote position `t`. -/
def pauseEvent (t : ℚ) : SyncData := { type := .pause, time := some t }

/-! ## Connection Manager (src/offscreen/offscreen.js) -/

/-- The PeerJS `Peer` object as far as offscreen.js reads it: its
`disconnected` and `destroyed` flags. -/
structure PeerInfo where
  disconnected : Bool
  destroyed : Bool
deriving DecidableEq, Repr

/-- One entry of the `connections` map: the remote `peerId` it is keyed by,
and the data connection's `open` flag.  Entries are inserted by the
connection's `open` handler (so with `isOpen = true`) and removed on
`close`/`error`. -/
structure Conn where
  peer : String
  isOpen : Bool
deriving DecidableEq, Repr

/-- Module state of offscreen.js: `peer`, `connections`, `sessionCode`,
`isHost` (lines 4-7). -/
structure OffState where
  peer : Option PeerInfo
  connections : List Conn
  sessionCode : Option String
  isHost : Bool
deriving DecidableEq, Repr

/-- `connections.set(p, conn)` for a connection whose `open` event just
fired: replace the entry keyed `p` if present, else append it (JS `Map.set`
keeps insertion order and key uniqueness). -/
def mapSet (conns : List Conn) (p : String) : List Conn :=
  if conns.any (fun c => c.peer = p) then
    conns.map (fun c => if c.peer = p then ⟨p, true⟩ else c)
  else
    conns ++ [⟨p, true⟩]

/-- `connections.delete(p)`. -/
def mapDelete (conns : List Conn) (p : String) : List Conn :=
  conns.filter (fun c => c.peer ≠ p)

/-- Number of entries of the map whose data connection is Open. -/
def openCount (conns : List Conn) : Nat :=
  (conns.filter (fun c => c.isOpen)).length

/-- A notification sent to the background service worker
(`sendToBackground`). -/
inductive BgMsg
  | peerReady (peerId : String)
  | peerJoined (peerId : String) (count : Nat)
  | peerLeft (peerId : String) (count : Nat)
  | peerData (d : SyncData) (origin : String)
  | connectionStatus (status : String)
deriving DecidableEq, Repr

/-- `conn.on('open')` of `setupConnection` (offscreen.js lines 99-103):
insert the connection and notify `peer-joined` with
`connections.size + 1`. -/
def onConnOpen (s : OffState) (p : String) : OffState × List BgMsg :=
  let conns := mapSet s.connections p
  ({ s with connections := conns }, [BgMsg.peerJoined p (conns.length + 1)])

/-- `conn.on('data')` of `setupConnection` (offscreen.js lines 105-117):
notify the coordinator of the raw event tagged with its origin, and - when
acting as host with `connections.size > 1` - relay the data verbatim to
every map entry whose key differs from the origin and whose connection is
open.  Returns the notifications and the list of `(peerId, data)` sends. -/
def onConnData (s : OffState) (p : String) (d : SyncData) :
    OffState × List BgMsg × List (String × SyncData) :=
  let relays :=
    if s.isHost ∧ s.connections.length > 1 then
      (s.connections.filter (fun c => c.peer ≠ p ∧ c.isOpen)).map (fun c => (c.peer, d))
    else []
  (s, [BgMsg.peerData d p], relays)

/-- `conn.on('close')` of `setupConnection` (offscreen.js lines 119-123):
remove the entry and notify `peer-left` with `connections.size + 1`. -/
def onConnClose (s : OffState) (p : String) : OffState × List BgMsg :=
  let conns := mapDelete s.connections p
  ({ s with connections := conns }, [BgMsg.peerLeft p (conns.length + 1)])

/-- `conn.on('error')` of `setupConnection` (offscreen.js lines 125-128):
remove the entry and notify nothing (only `console.error`). -/
def onConnError (s : OffState) (p : String) : OffState × List BgMsg :=
  ({ s with connections := mapDelete s.connections p }, [])

/-- `peer.on('disconnected')` (offscreen.js lines 77-87): the library marks
the peer disconnected; the handler notifies `reconnecting` and schedules a
single `peer.reconnect()`. -/
def onPeerDisconnected (s : OffState) : OffState × List BgMsg :=
  ({ s with peer := s.peer.map (fun p => { p with disconnected := true }) },
   [BgMsg.connectionStatus "reconnecting"])

/-- Successful `peer.reconnect()`: the library clears the `disconnected`
flag. -/
def onPeerReconnected (s : OffState) : OffState × List BgMsg :=
  ({ s with peer := s.peer.map (fun p => { p with disconnected := false }) }, [])

/-- `peer.on('close')` (offscreen.js lines 89-92): the library marks the
peer destroyed; the handler notifies `closed`. -/
def onPeerClose (s : OffState) : OffState × List BgMsg :=
  ({ s with peer := s.peer.map (fun p => { p with destroyed := true }) },
   [BgMsg.connectionStatus "closed"])

/-- Result shape `{ success, error? }` returned to the background. -/
structure OpResult where
  success : Bool
  error : Option String := none
deriving DecidableEq, Repr

/-- `leaveSession()` (offscreen.js lines 198-210): destroy the peer, null
it, clear the connections and the session variables, and return
`{ success: true }` unconditionally. -/
def leaveSession (_s : OffState) : OffState × OpResult :=
  ({ peer := none, connections := [], sessionCode := none, isHost := false },
   { success := true })

/-- `getStatus()` result (offscreen.js lines 212-219). -/
structure Status where
  connected : Bool
  sessionCode : Option String
  isHost : Bool
  peerCount : Nat
deriving DecidableEq, Repr

/-- `getStatus()` (offscreen.js lines 212-219): `connected` is
`peer !== null && !peer.disconnected && !peer.destroyed`; `peerCount` is
`connections.size + (peer && !peer.destroyed ? 1 : 0)`. -/
def getStatus (s : OffState) : Status :=
  { connected :=
      match s.peer with
      | none => false
      | some p => !p.disconnected && !p.destroyed
    sessionCode := s.sessionCode
    isHost := s.isHost
    peerCount :=
      s.connections.length +
        (match s.peer with
         | none => 0
         | some p => if p.destroyed then 0 else 1) }

/-- `broadcast(data)` (offscreen.js lines 221-227): send on every map entry
whose connection is open. -/
def broadcast (s : OffState) (d : SyncData) : List (String × SyncData) :=
  (s.connections.filter (fun c => c.isOpen)).map (fun c => (c.peer, d))

/-! ### Reachable session states

The environment (the transport library) drives the handlers registered by
offscreen.js; a session run is a fold of those handler steps from the state
an active session starts in. -/

/-- One environment event delivered to the handlers offscreen.js
registers. -/
inductive Ev
  | connOpen (p : String)
  | connData (p : String) (d : SyncData)
  | connClose (p : String)
  | connError (p : String)
  | peerDisconnected
  | peerReconnected
  | peerClose
  | leave
deriving DecidableEq, Repr

/-- State transition of one event. -/
def step (s : OffState) : Ev → OffState
  | .connOpen p => (onConnOpen s p).1
  | .connData p d => (onConnData s p d).1
  | .connClose p => (onConnClose s p).1
  | .connError p => (onConnError s p).1
  | .peerDisconnected => (onPeerDisconnected s).1
  | .peerReconnected => (onPeerReconnected s).1
  | .peerClose => (onPeerClose s).1
  | .leave => (leaveSession s).1

/-- Notifications emitted by one event's handler. -/
def stepMsgs (s : OffState) : Ev → List BgMsg
  | .connOpen p => (onConnOpen s p).2
  | .connData p d => (onConnData s p d).2.1
  | .connClose p => (onConnClose s p).2
  | .connError p => (onConnError s p).2
  | .peerDisconnected => (onPeerDisconnected s).2
  | .peerReconnected => (onPeerReconnected s).2
  | .peerClose => (onPeerClose s).2
  | .leave => []

/-- Run a list of events from a start state. -/
def runEvents (s : OffState) (evs : List Ev) : OffState :=
  evs.foldl step s

/-- State right after `createSession`/`joinSession` succeeds: a live peer
identity, and - for a guest - the single open link to the host inserted by
its `open` handler.  (`host = true` gives the host start, with no links
yet.) -/
def sessionStart (host : Bool) (code : String) : OffState :=
  { peer := some { disconnected := false, destroyed := false }
    connections := if host then [] else [⟨"videosync-" ++ code, true⟩]
    sessionCode := some code
    isHost := host }

/-- The count a `peer-joined`/`peer-left` notification reports to the
coordinator (`none` for the other notifications). -/
def reportedCount : BgMsg → Option Nat
  | .peerJoined _ c => some c
  | .peerLeft _ c => some c
  | _ => none

/-! ### Session creation and its collision retry (offscreen.js lines 131-152) -/

/-- Outcome of one `initPeer` attempt as `createSession` distinguishes
them: the collision rejection (`err.message === 'Session code already in
use'`), success, or any other rejection. -/
inductive InitOutcome
  | collision
  | opened
  | failed (msg : String)
deriving DecidableEq, Repr

/-- Result of `createSession`. -/
inductive CreateResult
  | ok
  | err (msg : String)
deriving DecidableEq, Repr

/-- `createSession()` (offscreen.js lines 131-152) run against a sequence
of attempt outcomes, one consumed per attempt: on success return
`{ success: true, ... }`; on the collision rejection call `createSession()`
again (the bare recursive `return createSession()` of line 148); on any
other rejection return `{ success: false, error }`.  `none` means the
supplied outcomes were exhausted with the function still retrying. -/
def createSessionRun : List InitOutcome → Option CreateResult
  | [] => none
  | o :: rest =>
      match o with
      | .opened => some CreateResult.ok
      | .collision => createSessionRun rest
      | .failed msg => some (CreateResult.err msg)

/-- Number of `initPeer` attempts `createSession` makes before returning,
against a given outcome sequence (each consumed outcome is one attempt). -/
def createSessionAttempts : List InitOutcome → Nat
  | [] => 0
  | o :: rest =>
      match o with
      | .opened => 1
      | .collision => 1 + createSessionAttempts rest
      | .failed _ => 1

/-! ### Timeout handlers (offscreen.js lines 44-46 and 174-177) -/

/-- An action a connect-timeout handler can perform on the in-flight
attempt. -/
inductive AbortAct
  | closeConn
  | destroyPeer
  | rejectWith (msg : String)
deriving DecidableEq, Repr

/-- The body of the 15s `initPeer` timeout (offscreen.js lines 44-46): it
only rejects the promise; the freshly constructed `Peer` is neither
destroyed nor closed. -/
def initPeerTimeoutActions : List AbortAct :=
  [AbortAct.rejectWith "Connection timeout - could not reach signaling server"]

/-- The body of the 10s `joinSession` connect timeout (offscreen.js lines
174-177): `conn.close()` then reject. -/
def joinConnectTimeoutActions : List AbortAct :=
  [AbortAct.closeConn,
   AbortAct.rejectWith "Could not connect to session - host may be offline"]

/-- Whether a timeout handler explicitly closes or aborts the in-flight
attempt (rather than merely rejecting). -/
def abortsInFlight (acts : List AbortAct) : Bool :=
  acts.any (fun a =>
    match a with
    | .closeConn => true
    | .destroyPeer => true
    | .rejectWith _ => false)

/-- Module state right after `createSession` fails with the 15s timeout
(offscreen.js lines 131-151 with `initPeer` rejecting by timeout): the
`catch` branch returns `{ success: false }`, but the `peer` variable still
holds the `Peer` constructed at line 33 - alive, not destroyed - and
`sessionCode`/`isHost` keep the values set before the attempt. -/
def createSessionStateAfterTimeout (code : String) : OffState :=
  { peer := some { disconnected := false, destroyed := false }
    connections := []
    sessionCode := some code
    isHost := true }

/-! ### Session codes (offscreen.js lines 10-21) -/

/-- The character set of `generateSessionCode`. -/
def sessionCodeChars : List Char :=
  "ABCDEFGHJKLMNPQRSTUVWXYZ23456789".toList

/-- `generateSessionCode()` (offscreen.js lines 10-17): six characters,
each `chars.charAt(Math.floor(Math.random() * chars.length))`; the six
random draws are the function's input `r`, each an index below
`chars.length`. -/
def generateSessionCode (r : Fin 6 → Fin sessionCodeChars.length) : List Char :=
  List.ofFn (fun i : Fin 6 => sessionCodeChars.get (r i))

/-! ## Session Coordinator (src/unnamed/part_000, background service worker) -/

/-- Coordinator-side mirrored session state (part_000 lines 4-7). -/
structure BgState where
  sessionCode : Option String
  isHost : Bool
  peerCount : Nat
deriving DecidableEq, Repr

/-- `handleLeaveSession` (part_000 lines 169-185): await the connection
manager's `leave-session` result and reset the mirrored state; if the
round-trip itself throws, respond `{ success: true }` anyway ("still
consider it left").  The input is the outcome of `sendToOffscreen`. -/
def handleLeaveSession (outcome : Except String OpResult) (bg : BgState) :
    BgState × OpResult :=
  match outcome with
  | .ok r =>
      ({ sessionCode := none, isHost := false, peerCount := 0 }, r)
  | .error _ => (bg, { success := true })

/-! ### Concrete instances used to exercise the theorems -/

/-- A host state holding two open links (the first keyed by the host's own
derived identity string is the link the event arrives on). -/
def hostTwoLinks : OffState :=
  { peer := some { disconnected := false, destroyed := false }
    connections := [⟨"guest-a", true⟩, ⟨"guest-b", true⟩]
    sessionCode := some "AAAAAA"
    isHost := true }

/-- A concrete seek event. -/
def seekEvent3 : SyncData := { type := .seek, time := some 3 }

/-! ## Theorems -/

/-- The executable absolute value agrees with Mathlib's. -/
theorem ratAbs_eq_abs (q : ℚ) : ratAbs q = |q| := by
  unfold ratAbs
  rcases lt_or_le q 0 with h | h
  · rw [if_pos h, abs_of_neg h]
  · rw [if_neg (not_lt.2 h), abs_of_nonneg h]

/-- C1: for a remotely received play or pause Sync Event carrying remote
position `t`, `applySync` issues a seek to `t` if and only if the local
position differs from `t` by more than the 0.5s threshold, and in either
case then applies the play/pause state; with local position 10.0 and a play
event at 10.2 no seek is issued but play fires, while at 12.0 a seek to
12.0 precedes play. -/
theorem c1_play_pause_threshold (v : VideoState) (t : ℚ) :
    (applySyncOps (playEvent t) v =
      if |v.currentTime - t| > SYNC_THRESHOLD
        then [VideoOp.setTime t, VideoOp.play] else [VideoOp.play]) ∧
    (applySyncOps (pauseEvent t) v =
      if |v.currentTime - t| > SYNC_THRESHOLD
        then [VideoOp.setTime t, VideoOp.pause] else [VideoOp.pause]) ∧
    (applySync (playEvent t) v).paused = false ∧
    (applySync (pauseEvent t) v).paused = true ∧
    applySyncOps (playEvent (10.2 : ℚ)) ⟨10, true, 1⟩ = [VideoOp.play] ∧
    applySyncOps (playEvent (12 : ℚ)) ⟨10, true, 1⟩
      = [VideoOp.setTime 12, VideoOp.play] := by
  refine ⟨?_, ?_, ?_, ?_, ?_, ?_⟩
  case _ | _ | _ | _ =>
    simp only [applySyncOps, applySync, runOps, runOp, playEvent, pauseEvent,
      Option.getD_some, ratAbs_eq_abs]
    split <;> simp [runOp]
  case _ =>
    simp only [applySyncOps, playEvent, Option.getD_some]
    rw [if_neg (by unfold ratAbs SYNC_THRESHOLD; norm_num)]
    rfl
  case _ =>
    simp only [applySyncOps, playEvent, Option.getD_some]
    rw [if_pos (by unfold ratAbs SYNC_THRESHOLD; norm_num)]
    rfl

/-- C6 counterexample: an element whose playback rate is 0 answers a
sync-request with a response carrying `speed = 0`, but applying that very
response sets the rate to 1, not to the transmitted 0, so even the
element's own snapshot is not applied exactly and its first application is
not a no-op. -/
theorem c6_counterexample :
    responseOf { currentTime := 7, paused := true, playbackRate := 0 }
      = { type := .syncResponse, time := some 7, speed := some 0,
          playing := some false } ∧
    (applySync (responseOf { currentTime := 7, paused := true, playbackRate := 0 })
        { currentTime := 7, paused := true, playbackRate := 0 }).playbackRate = 1 ∧
    applySync (responseOf { currentTime := 7, paused := true, playbackRate := 0 })
        { currentTime := 7, paused := true, playbackRate := 0 }
      ≠ { currentTime := 7, paused := true, playbackRate := 0 } := by
  refine ⟨rfl, rfl, ?_⟩
  intro h
  have h1 : (1 : ℚ) = 0 := congrArg VideoState.playbackRate h
  exact one_ne_zero h1

/-- C6 amended: a peer holding playback state `(t, p, s)` answers a
sync-request with a sync-response carrying exactly those values; applying a
received sync-response sets the element's position and play/pause state
exactly to the response's `time` and `playing` fields and the playback rate
to the response's `speed` when that is nonzero (to 1 when it is 0);
re-applying the same response is a no-op. -/
theorem c6_round_trip (v w : VideoState) (t s : ℚ) (p : Bool) :
    applySyncOps { type := .syncRequest } v = [VideoOp.respond (responseOf v)] ∧
    responseOf v = { type := .syncResponse, time := some v.currentTime,
                     speed := some v.playbackRate, playing := some (!v.paused) } ∧
    applySync { type := .syncResponse, time := some t, speed := some s,
                playing := some p } w
      = { currentTime := t, paused := !p,
          playbackRate := if s = 0 then 1 else s } ∧
    applySync { type := .syncResponse, time := some t, speed := some s,
                playing := some p }
        (applySync { type := .syncResponse, time := some t, speed := some s,
                     playing := some p } w)
      = applySync { type := .syncResponse, time := some t, speed := some s,
                    playing := some p } w := by
  have key : ∀ u : VideoState,
      applySync { type := .syncResponse, time := some t, speed := some s,
                  playing := some p } u
        = { currentTime := t, paused := !p,
            playbackRate := if s = 0 then 1 else s } := by
    intro u
    cases p <;> rfl
  exact ⟨rfl, rfl, key w, by rw [key, key]⟩

/-- C10: applying a sync-response whose `speed` field is absent or 0 sets
the playback rate to 1 (JavaScript `data.speed || 1`); any other
transmitted speed is applied as sent. -/
theorem c10_speed_fallback (v : VideoState) (t : ℚ) (p : Bool) (s : ℚ)
    (hs : s ≠ 0) :
    (applySync { type := .syncResponse, time := some t, speed := none,
                 playing := some p } v).playbackRate = 1 ∧
    (applySync { type := .syncResponse, time := some t, speed := some 0,
                 playing := some p } v).playbackRate = 1 ∧
    (applySync { type := .syncResponse, time := some t, speed := some s,
                 playing := some p } v).playbackRate = s := by
  cases p <;> simp [applySync, applySyncOps, runOps, runOp, jsOrQ, hs]

/-- C10 witness: at speed 5/4 the transmitted value is applied, while an
absent or zero speed falls back to rate 1. -/
theorem c10_speed_fallback_witness :
    ((5/4 : ℚ) ≠ 0) ∧
    ((applySync { type := .syncResponse, time := some 3, speed := none,
                  playing := some false }
        { currentTime := 0, paused := true, playbackRate := 2 }).playbackRate = 1 ∧
     (applySync { type := .syncResponse, time := some 3, speed := some 0,
                  playing := some false }
        { currentTime := 0, paused := true, playbackRate := 2 }).playbackRate = 1 ∧
     (applySync { type := .syncResponse, time := some 3, speed := some (5/4),
                  playing := some false }
        { currentTime := 0, paused := true, playbackRate := 2 }).playbackRate
       = 5/4) :=
  ⟨by norm_num,
   c10_speed_fallback { currentTime := 0, paused := true, playbackRate := 2 }
     3 false (5/4) (by norm_num)⟩

/-- C9: a transport error on a peer link removes the link from the map but
emits no notification at all (in particular no peer-left), while the close
path removes the link and always notifies peer-left with the updated
count. -/
theorem c9_error_removes_silently (s : OffState) (p : String) :
    (onConnError s p).1.connections = mapDelete s.connections p ∧
    (onConnError s p).2 = [] ∧
    (onConnClose s p).1.connections = mapDelete s.connections p ∧
    (onConnClose s p).2
      = [BgMsg.peerLeft p ((mapDelete s.connections p).length + 1)] :=
  ⟨rfl, rfl, rfl, rfl⟩

/-- C3: the connection manager's `leaveSession` always reports success, is
idempotent, and leaves a state whose `getStatus` reports not connected with
`peerCount = 0`; the coordinator's `handleLeaveSession` responds success
both when it receives that result and when the round-trip itself fails. -/
theorem c3_leave_always_succeeds (s : OffState) (bg : BgState) :
    (leaveSession s).2 = { success := true } ∧
    (leaveSession (leaveSession s).1).1 = (leaveSession s).1 ∧
    getStatus (leaveSession s).1
      = { connected := false, sessionCode := none, isHost := false,
          peerCount := 0 } ∧
    (handleLeaveSession (Except.ok (leaveSession s).2) bg).2.success = true ∧
    (handleLeaveSession (Except.ok (leaveSession s).2) bg).1
      = { sessionCode := none, isHost := false, peerCount := 0 } ∧
    (∀ e, (handleLeaveSession (Except.error e) bg).2.success = true) :=
  ⟨rfl, rfl, rfl, rfl, rfl, fun _ => rfl⟩

/-- C2: while acting as host with more than one Open link, the inbound-data
handler notifies the coordinator of the raw event tagged with its origin,
relays the event verbatim to every Open link other than the one it arrived
on, and never sends it back on the originating link. -/
theorem c2_relay_skips_origin (s : OffState) (p : String) (d : SyncData)
    (hhost : s.isHost = true) (hopen : 1 < openCount s.connections) :
    (onConnData s p d).2.1 = [BgMsg.peerData d p] ∧
    (∀ c ∈ s.connections, c.isOpen = true → c.peer ≠ p →
      (c.peer, d) ∈ (onConnData s p d).2.2) ∧
    (∀ x ∈ (onConnData s p d).2.2, x.1 ≠ p ∧ x.2 = d) := by
  have hlen : 1 < s.connections.length :=
    lt_of_lt_of_le hopen (List.length_filter_le _ _)
  have hrel : (onConnData s p d).2.2
      = (s.connections.filter (fun c => c.peer ≠ p ∧ c.isOpen)).map
          (fun c => (c.peer, d)) := by
    simp [onConnData, hhost, hlen]
  refine ⟨rfl, ?_, ?_⟩
  · intro c hc ho hne
    rw [hrel]
    exact List.mem_map.2 ⟨c, List.mem_filter.2 ⟨hc, by simp [hne, ho]⟩, rfl⟩
  · intro x hx
    rw [hrel] at hx
    obtain ⟨c, hcf, rfl⟩ := List.mem_map.1 hx
    have hpred := (List.mem_filter.1 hcf).2
    simp only [decide_eq_true_eq, Bool.and_eq_true] at hpred
    exact ⟨hpred.1, rfl⟩

/-- C2 witness: a host with two open links relays an event arriving from
the first only to the second. -/
theorem c2_relay_skips_origin_witness :
    hostTwoLinks.isHost = true ∧
    1 < openCount hostTwoLinks.connections ∧
    ((onConnData hostTwoLinks "guest-a" seekEvent3).2.1
        = [BgMsg.peerData seekEvent3 "guest-a"] ∧
     (∀ c ∈ hostTwoLinks.connections, c.isOpen = true → c.peer ≠ "guest-a" →
       (c.peer, seekEvent3) ∈ (onConnData hostTwoLinks "guest-a" seekEvent3).2.2) ∧
     (∀ x ∈ (onConnData hostTwoLinks "guest-a" seekEvent3).2.2,
       x.1 ≠ "guest-a" ∧ x.2 = seekEvent3)) :=
  ⟨rfl, by decide,
   c2_relay_skips_origin hostTwoLinks "guest-a" seekEvent3 rfl (by decide)⟩

/-- `createSession` consumes every leading collision outcome without
returning. -/
theorem createSessionRun_skips_collisions (l : List InitOutcome) :
    ∀ n, createSessionRun (List.replicate n InitOutcome.collision ++ l)
      = createSessionRun l := by
  intro n
  induction n with
  | zero => rfl
  | succ n ih => simpa [List.replicate, createSessionRun] using ih

/-- Attempts grow one per leading collision. -/
theorem createSessionAttempts_replicate :
    ∀ n, createSessionAttempts (List.replicate n InitOutcome.collision) = n := by
  intro n
  induction n with
  | zero => rfl
  | succ n ih =>
      rw [List.replicate_succ]
      show 1 + createSessionAttempts (List.replicate n InitOutcome.collision)
        = n + 1
      rw [ih]
      omega

/-- C4 counterexample: fed 1000 consecutive collision outcomes,
`createSession` has made 1000 attempts and still not returned - the bare
`return createSession()` of offscreen.js line 148 retries without any
bound. -/
theorem c4_counterexample :
    createSessionRun (List.replicate 1000 InitOutcome.collision) = none ∧
    createSessionAttempts (List.replicate 1000 InitOutcome.collision) = 1000 := by
  constructor
  · have h := createSessionRun_skips_collisions [] 1000
    rw [List.append_nil] at h
    exact h
  · exact createSessionAttempts_replicate 1000

/-- C4 amended: the collision retry of `createSession` is unbounded - after
any number `n` of collision outcomes it is still retrying, having made `n`
attempts, and it returns exactly when an attempt yields a non-collision
outcome (success on open, failure on any other rejection). -/
theorem c4_unbounded_retry (n : Nat) (msg : String) :
    createSessionRun (List.replicate n InitOutcome.collision) = none ∧
    createSessionAttempts (List.replicate n InitOutcome.collision) = n ∧
    createSessionRun
        (List.replicate n InitOutcome.collision ++ [InitOutcome.opened])
      = some CreateResult.ok ∧
    createSessionRun
        (List.replicate n InitOutcome.collision ++ [InitOutcome.failed msg])
      = some (CreateResult.err msg) := by
  refine ⟨?_, createSessionAttempts_replicate n, ?_, ?_⟩
  · have h := createSessionRun_skips_collisions [] n
    rw [List.append_nil] at h
    exact h
  · rw [createSessionRun_skips_collisions]
    rfl
  · rw [createSessionRun_skips_collisions]
    rfl

/-- C7 counterexample: the 15s session-creation timeout handler only
rejects - it neither closes a connection nor destroys the peer - and after
`createSession` fails by timeout the partial peer identity is still alive
(not destroyed), an orphaned attempt. -/
theorem c7_counterexample :
    abortsInFlight initPeerTimeoutActions = false ∧
    (createSessionStateAfterTimeout "AAAAAA").peer
      = some { disconnected := false, destroyed := false } ∧
    (getStatus (createSessionStateAfterTimeout "AAAAAA")).connected = true :=
  ⟨rfl, rfl, rfl⟩

/-- C7 amended: the 10s join-connect timeout explicitly closes the
in-flight connection, but the 15s session-creation timeout merely rejects,
leaving the partial peer identity live (it is only released by a later
create/join/leave). -/
theorem c7_join_timeout_aborts (code : String) :
    abortsInFlight joinConnectTimeoutActions = true ∧
    abortsInFlight initPeerTimeoutActions = false ∧
    (createSessionStateAfterTimeout code).peer
      = some { disconnected := false, destroyed := false } ∧
    (getStatus (createSessionStateAfterTimeout code)).connected = true :=
  ⟨rfl, rfl, rfl, rfl⟩

/-- C8 counterexample: the session-code character set has 32 symbols, not
33. -/
theorem c8_counterexample :
    sessionCodeChars.length = 32 ∧ ¬ sessionCodeChars.length = 33 := by
  refine ⟨rfl, ?_⟩
  intro h
  rw [show sessionCodeChars.length = 32 from rfl] at h
  omega

/-- C8 amended: every generated session code has exactly 6 characters, each
drawn from the alphabet `ABCDEFGHJKLMNPQRSTUVWXYZ23456789` - an alphabet of
32 symbols that excludes I, O, 0 and 1. -/
theorem c8_code_alphabet (r : Fin 6 → Fin sessionCodeChars.length) :
    (generateSessionCode r).length = 6 ∧
    (generateSessionCode r).all
      (fun c => decide (c ∈ sessionCodeChars)) = true ∧
    sessionCodeChars.length = 32 ∧
    ('I' ∉ sessionCodeChars ∧ 'O' ∉ sessionCodeChars ∧
     '0' ∉ sessionCodeChars ∧ '1' ∉ sessionCodeChars) := by
  refine ⟨by simp [generateSessionCode], ?_, rfl, by decide⟩
  rw [List.all_eq_true]
  intro c hc
  rw [generateSessionCode, List.mem_ofFn] at hc
  obtain ⟨i, rfl⟩ := hc
  simp only [decide_eq_true_eq]
  exact List.get_mem sessionCodeChars (r i) (r i).isLt

/-- `Map.set` of an open connection preserves "every map entry is Open". -/
theorem allOpen_mapSet (conns : List Conn) (p : String)
    (h : ∀ c ∈ conns, c.isOpen = true) :
    ∀ c ∈ mapSet conns p, c.isOpen = true := by
  intro c hc
  unfold mapSet at hc
  split at hc
  · obtain ⟨c', hc', rfl⟩ := List.mem_map.1 hc
    by_cases hp : c'.peer = p
    · simp [hp]
    · simp only [if_neg hp]
      exact h c' hc'
  · rcases List.mem_append.1 hc with h1 | h1
    · exact h c h1
    · simp only [List.mem_singleton] at h1
      subst h1
      rfl

/-- `Map.delete` preserves "every map entry is Open". -/
theorem allOpen_mapDelete (conns : List Conn) (p : String)
    (h : ∀ c ∈ conns, c.isOpen = true) :
    ∀ c ∈ mapDelete conns p, c.isOpen = true :=
  fun c hc => h c (List.mem_of_mem_filter hc)

/-- Every handler step preserves "every map entry is Open". -/
theorem allOpen_step (s : OffState) (e : Ev)
    (h : ∀ c ∈ s.connections, c.isOpen = true) :
    ∀ c ∈ (step s e).connections, c.isOpen = true := by
  cases e with
  | connOpen p => exact allOpen_mapSet s.connections p h
  | connData p d => exact h
  | connClose p => exact allOpen_mapDelete s.connections p h
  | connError p => exact allOpen_mapDelete s.connections p h
  | peerDisconnected => exact h
  | peerReconnected => exact h
  | peerClose => exact h
  | leave => intro c hc; cases hc

/-- The start state of a session has only Open entries. -/
theorem allOpen_sessionStart (host : Bool) (code : String) :
    ∀ c ∈ (sessionStart host code).connections, c.isOpen = true := by
  intro c hc
  cases host with
  | true => simp [sessionStart] at hc
  | false =>
      simp only [sessionStart, Bool.false_eq_true, if_false,
        List.mem_singleton] at hc
      subst hc
      rfl

/-- In every state reachable from a session start, every map entry is
Open. -/
theorem allOpen_runEvents (host : Bool) (code : String) (evs : List Ev) :
    ∀ c ∈ (runEvents (sessionStart host code) evs).connections,
      c.isOpen = true := by
  suffices h : ∀ (s : OffState), (∀ c ∈ s.connections, c.isOpen = true) →
      ∀ c ∈ (runEvents s evs).connections, c.isOpen = true from
    h _ (allOpen_sessionStart host code)
  induction evs with
  | nil => exact fun s h => h
  | cons e evs ih => exact fun s h => ih (step s e) (allOpen_step s e h)

/-- When every entry is Open, the Open count is the map size. -/
theorem openCount_eq_length (conns : List Conn)
    (h : ∀ c ∈ conns, c.isOpen = true) : openCount conns = conns.length := by
  unfold openCount
  rw [List.filter_eq_self.2 h]

/-- C5: in every state of an active session reachable from a host or guest
start by the registered handlers, `getStatus` reports
`peerCount = 1 + |Open links|`, and every count a `peer-joined`/`peer-left`
notification reports to the coordinator equals `1 + |Open links|` of the
state the emitting step produced. -/
theorem c5_peer_count_invariant (host : Bool) (code : String) (evs : List Ev)
    (e : Ev)
    (hact : (getStatus (runEvents (sessionStart host code) evs)).connected
      = true) :
    (getStatus (runEvents (sessionStart host code) evs)).peerCount
        = 1 + openCount (runEvents (sessionStart host code) evs).connections ∧
    (∀ m ∈ stepMsgs (runEvents (sessionStart host code) evs) e, ∀ n,
      reportedCount m = some n →
        n = 1 + openCount
              (step (runEvents (sessionStart host code) evs) e).connections) := by
  have hall : ∀ c ∈ (runEvents (sessionStart host code) evs).connections,
      c.isOpen = true := allOpen_runEvents host code evs
  set s := runEvents (sessionStart host code) evs with hs
  have hcount : openCount s.connections = s.connections.length :=
    openCount_eq_length _ hall
  constructor
  · rcases hp : s.peer with _ | p
    · rw [getStatus, hp] at hact
      cases hact
    · have hd : p.destroyed = false := by
        rw [getStatus, hp] at hact
        simp only [Bool.and_eq_true, Bool.not_eq_true'] at hact
        exact hact.2
      rw [getStatus, hp]
      simp only [hd, Bool.false_eq_true, if_false, hcount]
      omega
  · intro m hm n hmn
    cases e with
    | connOpen p =>
        simp only [stepMsgs, onConnOpen, List.mem_singleton] at hm
        subst hm
        simp only [reportedCount, Option.some.injEq] at hmn
        subst hmn
        have h2 : openCount (mapSet s.connections p)
            = (mapSet s.connections p).length :=
          openCount_eq_length _ (allOpen_mapSet _ _ hall)
        simp only [step, onConnOpen, h2]
        omega
    | connData p d =>
        simp only [stepMsgs, onConnData, List.mem_singleton] at hm
        subst hm
        exact Option.noConfusion hmn
    | connClose p =>
        simp only [stepMsgs, onConnClose, List.mem_singleton] at hm
        subst hm
        simp only [reportedCount, Option.some.injEq] at hmn
        subst hmn
        have h2 : openCount (mapDelete s.connections p)
            = (mapDelete s.connections p).length :=
          openCount_eq_length _ (allOpen_mapDelete _ _ hall)
        simp only [step, onConnClose, h2]
        omega
    | connError p =>
        simp only [stepMsgs, onConnError] at hm
        cases hm
    | peerDisconnected =>
        simp only [stepMsgs, onPeerDisconnected, List.mem_singleton] at hm
        subst hm
        exact Option.noConfusion hmn
    | peerReconnected =>
        simp only [stepMsgs, onPeerReconnected] at hm
        cases hm
    | peerClose =>
        simp only [stepMsgs, onPeerClose, List.mem_singleton] at hm
        subst hm
        exact Option.noConfusion hmn
    | leave =>
        simp only [stepMsgs] at hm
        cases hm

/-- C5 witness: a host session where one guest has joined and a second is
joining. -/
theorem c5_peer_count_invariant_witness :
    (getStatus (runEvents (sessionStart true "AAAAAA") [Ev.connOpen "g1"])).connected
      = true ∧
    ((getStatus (runEvents (sessionStart true "AAAAAA") [Ev.connOpen "g1"])).peerCount
        = 1 + openCount
            (runEvents (sessionStart true "AAAAAA") [Ev.connOpen "g1"]).connections ∧
     (∀ m ∈ stepMsgs (runEvents (sessionStart true "AAAAAA") [Ev.connOpen "g1"])
          (Ev.connOpen "g2"), ∀ n,
        reportedCount m = some n →
          n = 1 + openCount
                (step (runEvents (sessionStart true "AAAAAA") [Ev.connOpen "g1"])
                  (Ev.connOpen "g2")).connections)) :=
  ⟨by decide,
   c5_peer_count_invariant true "AAAAAA" [Ev.connOpen "g1"] (Ev.connOpen "g2")
     (by decide)⟩

end VideoSync
